import Mathlib

/-!
Verification of the Tigo MCP server's Health & Maintenance Scoring Engine.

The decision logic lives in two Python files:
* `src/tigo_mcp_server/server.py` — `get_system_health` (health classification
  and recommendations, lines 417-440) and `get_maintenance_insights`
  (lines 510-543);
* `server.py` at the repo root — `get_maintenance_insights`
  (maintenance items, priority score, overall priority, next action,
  lines 330-397) and `safe_json_response` (lines 24-29).

Numeric fields are embedded as rationals (Python floats used only for
arithmetic and comparison here); counts are naturals.  Number-to-string
formatting inside message strings is abstracted by `toString`; no theorem
below depends on the exact rendering of a number.
-/

namespace Tigo

/-- Health labels produced by `get_system_health`
    (src/tigo_mcp_server/server.py lines 425-432). -/
inductive HealthStatus where
  | Excellent
  | Good
  | Fair
  | NeedsAttention
deriving DecidableEq, Repr

/-- The inputs `get_system_health` (src/tigo_mcp_server/server.py,
lines 417-419) reads from the adapter:
`power_rating = system_info.get("power_rating", 1)` (`none` models the key
being absent, defaulted to 1), `current_power = summary.get("last_power_dc", 0)`,
and `active_alerts = system_info.get("recent_alerts_count", 0)`. -/
structure Snapshot where
  power_rating : Option ℚ
  current_power : ℚ
  active_alerts : ℕ
deriving DecidableEq, Repr

/-- Dict lookup `system_info.get("power_rating", 1)`: the rating with the
dict default applied when the key is absent. -/
def effective_rating (s : Snapshot) : ℚ :=
  s.power_rating.getD 1

/-- Expression `(current_power / power_rating * 100) if power_rating > 0 else 0`
(src/tigo_mcp_server/server.py line 422; the same expression appears in
`get_maintenance_insights` line 515). -/
def efficiency_percent (s : Snapshot) : ℚ :=
  if 0 < effective_rating s then s.current_power / effective_rating s * 100 else 0

/-- The health classification chain of `get_system_health`
(src/tigo_mcp_server/server.py lines 425-432), evaluated top to bottom. -/
def classify_health (s : Snapshot) : HealthStatus :=
  if s.active_alerts = 0 ∧ 80 < efficiency_percent s then .Excellent
  else if s.active_alerts = 0 ∧ 60 < efficiency_percent s then .Good
  else if s.active_alerts ≤ 2 ∧ 40 < efficiency_percent s then .Fair
  else .NeedsAttention

/-- Recommendation added when `efficiency_percent < 60`
(src/tigo_mcp_server/server.py line 436). -/
def effLowMsg : String :=
  "System efficiency is below optimal - consider maintenance check"

/-- Recommendation `f"Address {active_alerts} active alerts"` added when
`active_alerts > 0` (src/tigo_mcp_server/server.py line 438). -/
def addressMsg (n : ℕ) : String :=
  "Address " ++ toString n ++ " active alerts"

/-- Fallback recommendation when none was added
(src/tigo_mcp_server/server.py line 440). -/
def performingWellMsg : String :=
  "System is performing well"

/-- The recommendation list built by `get_system_health`
(src/tigo_mcp_server/server.py lines 434-440): efficiency check first,
then alerts, then the fallback if the list is still empty. -/
def health_recommendations (s : Snapshot) : List String :=
  let recs :=
    (if efficiency_percent s < 60 then [effLowMsg] else []) ++
    (if 0 < s.active_alerts then [addressMsg s.active_alerts] else [])
  if recs = [] then [performingWellMsg] else recs

/-! ## Maintenance planner (root server.py, `get_maintenance_insights`) -/

/-- The inputs the root `get_maintenance_insights` (server.py lines 326-334)
reads: `underperforming` is the list of panel ids of underperforming panels
(from `find_underperforming_panels`; only the ids are consumed),
`avg_efficiency` models `efficiency.get("average_efficiency_percent", 100)`
(`none` = key absent, defaulted to 100), and `active_alerts` the alert
entries whose status is `"active"` (modelled by their detail strings). -/
structure MSnapshot where
  underperforming : List String
  avg_efficiency : Option ℚ
  active_alerts : List String
deriving DecidableEq, Repr

/-- A maintenance item dict (server.py lines 335-341, 347-360, 366-372);
keys absent from a given dict are modelled with `none`. -/
structure MaintenanceItem where
  category : String
  issue : String
  priority : String
  recommendation : String
  affected_panels : Option (List String)
  alert_details : Option (List String)
deriving DecidableEq, Repr

/-- The plan-level outputs of the root `get_maintenance_insights`
(server.py lines 385-398). -/
structure MaintenancePlan where
  items : List MaintenanceItem
  priority_score : ℕ
  overall_priority : String
  next_recommended_action : String
deriving DecidableEq, Repr

/-- Panel Performance item (server.py lines 335-341). -/
def panel_item (u : List String) (t : ℚ) : MaintenanceItem :=
  { category := "Panel Performance"
    issue := toString u.length ++ " panels performing below " ++ toString t ++ "%"
    priority := if 3 < u.length then "High" else "Medium"
    recommendation := "Inspect underperforming panels for soiling, shading, or hardware issues"
    affected_panels := some (u.take 5)
    alert_details := none }

/-- High-priority System Efficiency item (server.py lines 347-352). -/
def eff_item_high (avg : ℚ) : MaintenanceItem :=
  { category := "System Efficiency"
    issue := "Overall system efficiency at " ++ toString avg ++ "%"
    priority := "High"
    recommendation := "Schedule comprehensive system inspection and cleaning"
    affected_panels := none
    alert_details := none }

/-- Medium-priority System Efficiency item (server.py lines 355-360). -/
def eff_item_med (avg : ℚ) : MaintenanceItem :=
  { category := "System Efficiency"
    issue := "System efficiency below optimal at " ++ toString avg ++ "%"
    priority := "Medium"
    recommendation := "Consider panel cleaning and connection inspection"
    affected_panels := none
    alert_details := none }

/-- System Alerts item (server.py lines 366-372). -/
def alert_item (al : List String) : MaintenanceItem :=
  { category := "System Alerts"
    issue := toString al.length ++ " active system alerts"
    priority := "High"
    recommendation := "Address active alerts immediately"
    affected_panels := none
    alert_details := some (al.take 3) }

/-- Items contributed by the underperforming-panel rule (server.py line 334). -/
def panel_items (u : List String) (t : ℚ) : List MaintenanceItem :=
  if 0 < u.length then [panel_item u t] else []

/-- Score contribution `len(underperforming) * 10` of the panel rule
(server.py line 342), 0 when the rule does not fire. -/
def panel_score (n : ℕ) : ℕ :=
  if 0 < n then n * 10 else 0

/-- Items contributed by the efficiency rule (server.py lines 346-360):
`avg < 70` gives the High item, `elif avg < 85` the Medium item. -/
def eff_items_gen (avg : ℚ) : List MaintenanceItem :=
  if avg < 70 then [eff_item_high avg]
  else if avg < 85 then [eff_item_med avg]
  else []

/-- Score contribution of the efficiency rule (server.py lines 353, 361). -/
def eff_score (avg : ℚ) : ℕ :=
  if avg < 70 then 50
  else if avg < 85 then 25
  else 0

/-- Items contributed by the alert rule (server.py line 365). -/
def alert_items (al : List String) : List MaintenanceItem :=
  if 0 < al.length then [alert_item al] else []

/-- Score contribution `len(active_alerts) * 15` of the alert rule
(server.py line 373), 0 when the rule does not fire. -/
def alert_score (n : ℕ) : ℕ :=
  if 0 < n then n * 15 else 0

/-- The `maintenance_items` list in append order: Panel Performance, then System
Efficiency, then System Alerts (server.py lines 330-373). -/
def plan_items (m : MSnapshot) (t : ℚ) : List MaintenanceItem :=
  panel_items m.underperforming t ++
  eff_items_gen (m.avg_efficiency.getD 100) ++
  alert_items m.active_alerts

/-- The `priority_score` accumulated over the three rules (server.py lines 331-373). -/
def plan_score (m : MSnapshot) : ℕ :=
  panel_score m.underperforming.length +
  eff_score (m.avg_efficiency.getD 100) +
  alert_score m.active_alerts.length

/-- The `overall_priority` derived from `priority_score` (server.py lines 376-383). -/
def overall_priority_of (score : ℕ) : String :=
  if 100 < score then "Critical"
  else if 50 < score then "High"
  else if 25 < score then "Medium"
  else "Low"

/-- The `next_recommended_action` fallback (server.py line 397). -/
def monitoringMsg : String :=
  "System is performing well - continue regular monitoring"

/-- The root `get_maintenance_insights` decision core (server.py
lines 330-398): items, score, overall priority and next action. -/
def build_plan (m : MSnapshot) (t : ℚ) : MaintenancePlan :=
  { items := plan_items m t
    priority_score := plan_score m
    overall_priority := overall_priority_of (plan_score m)
    next_recommended_action :=
      match plan_items m t with
      | [] => monitoringMsg
      | i :: _ => i.recommendation }

/-- The System Efficiency items of a plan. -/
def eff_items (p : MaintenancePlan) : List MaintenanceItem :=
  p.items.filter (fun i => i.category = "System Efficiency")

/-! ## Packaged maintenance variant (src/tigo_mcp_server/server.py) -/

/-- A recommendation dict of the packaged `get_maintenance_insights`
(src/tigo_mcp_server/server.py lines 518-543). -/
structure PkgRec where
  priority : String
  component : String
  issue : String
  action : String
  estimated_impact : String
deriving DecidableEq, Repr

/-- The Preventive Maintenance fallback recommendation
(src/tigo_mcp_server/server.py lines 537-543). -/
def pkg_preventive_rec : PkgRec :=
  { priority := "Low"
    component := "Preventive Maintenance"
    issue := "System performing within normal parameters"
    action := "Schedule routine maintenance check"
    estimated_impact := "Continued optimal performance" }

/-- The recommendation list of the packaged `get_maintenance_insights`
(src/tigo_mcp_server/server.py lines 511-543): a High Solar Array item when
`efficiency < threshold_percent`, a Medium System Monitoring item when
`active_alerts > 0`, and the Preventive Maintenance fallback when the list
would otherwise be empty.  The efficiency is the same guarded expression as
in `get_system_health` (lines 513-515). -/
def pkg_maintenance_recs (s : Snapshot) (threshold_percent : ℚ) : List PkgRec :=
  let recs :=
    (if efficiency_percent s < threshold_percent then
      [{ priority := "High"
         component := "Solar Array"
         issue := "System efficiency (" ++ toString (efficiency_percent s) ++
           "%) below threshold (" ++ toString threshold_percent ++ "%)"
         action := "Schedule inspection and cleaning"
         estimated_impact := "5-15% efficiency improvement" : PkgRec }]
     else []) ++
    (if 0 < s.active_alerts then
      [{ priority := "Medium"
         component := "System Monitoring"
         issue := toString s.active_alerts ++ " active alerts detected"
         action := "Review and address system alerts"
         estimated_impact := "Improved system reliability" : PkgRec }]
     else [])
  if recs = [] then [pkg_preventive_rec] else recs

/-! ## JSON response wrapping (root server.py) -/

/-- Model of the Python values handed to `json.dumps` by the tools in
server.py.  `jother` stands for any value outside the JSON primitives;
`json.dumps(..., default=str)` renders it through `str` unless
serialization fails anyway (e.g. a circular structure), which the
`serializable` flag records. -/
inductive JVal where
  | jstr (s : String)
  | jnum (q : ℚ)
  | jbool (b : Bool)
  | jnull
  | jarr (elems : List JVal)
  | jobj (fields : List (String × JVal))
  | jother (text : String) (serializable : Bool)

mutual

/-- Model of `json.dumps(data, indent=2, default=str)` (server.py line 27):
returns the rendered text, or an `.error` carrying the exception message
when some sub-value cannot be serialized.  Layout details of the rendering
(indentation, escaping) are abstracted. -/
def dumps : JVal → Except String String
  | .jstr s => .ok ("\"" ++ s ++ "\"")
  | .jnum q => .ok (toString q)
  | .jbool b => .ok (toString b)
  | .jnull => .ok "null"
  | .jarr es =>
    match dumpsList es with
    | .ok parts => .ok ("[" ++ String.intercalate ", " parts ++ "]")
    | .error e => .error e
  | .jobj fs =>
    match dumpsFields fs with
    | .ok parts => .ok ("\x7b" ++ String.intercalate ", " parts ++ "\x7d")
    | .error e => .error e
  | .jother text ser =>
    if ser then .ok ("\"" ++ text ++ "\"")
    else .error ("Object of type " ++ text ++ " is not JSON serializable")

/-- Renders the elements of a JSON array, propagating the first failure. -/
def dumpsList : List JVal → Except String (List String)
  | [] => .ok []
  | v :: vs =>
    match dumps v with
    | .ok s =>
      match dumpsList vs with
      | .ok rest => .ok (s :: rest)
      | .error e => .error e
    | .error e => .error e

/-- Renders the fields of a JSON object, propagating the first failure. -/
def dumpsFields : List (String × JVal) → Except String (List String)
  | [] => .ok []
  | (k, v) :: fs =>
    match dumps v with
    | .ok s =>
      match dumpsFields fs with
      | .ok rest => .ok (("\"" ++ k ++ "\": " ++ s) :: rest)
      | .error e => .error e
    | .error e => .error e

end

/-- Function `safe_json_response` (server.py lines 24-29): try `json.dumps`
on the data; on failure, return `json.dumps` of an object whose single
field `"error"` carries the serialization-error message.  An `.error`
result models an exception escaping the function. -/
def safe_json_response (data : JVal) : Except String String :=
  match dumps data with
  | .ok s => .ok s
  | .error e =>
    dumps (.jobj [("error", .jstr ("JSON serialization error: " ++ e))])

/-- The shared shape of every `@mcp.tool` handler in server.py: the body
either produces response data or raises, and the `except` clause converts
the exception into `safe_json_response` of an object whose `"error"` field
holds the tool-specific context `ctx` followed by `str(e)` (e.g. lines
62-65, 402-403). -/
def tool_response (ctx : String) (body : Except String JVal) : Except String String :=
  match body with
  | .ok d => safe_json_response d
  | .error e => safe_json_response (.jobj [("error", .jstr (ctx ++ e))])

/-! ## Helper lemmas -/

lemma if_nonempty_ne_nil (l : List String) :
    (if l = [] then [performingWellMsg] else l) ≠ [] := by
  split_ifs with h
  · simp
  · exact h

lemma addressMsg_head (n : ℕ) : (addressMsg n).data.head? = some 'A' := by
  show ((("Address ").data ++ (toString n).data) ++ (" active alerts").data).head? =
    some 'A'
  rfl

lemma addressMsg_ne (n : ℕ) (t : String) (ht : t.data.head? = some 'S') :
    addressMsg n ≠ t := by
  intro h
  have hd : (addressMsg n).data.head? = t.data.head? := by rw [h]
  rw [addressMsg_head, ht] at hd
  exact absurd hd (by decide)

lemma panel_score_eq (n : ℕ) : panel_score n = n * 10 := by
  unfold panel_score; split <;> omega

lemma alert_score_eq (n : ℕ) : alert_score n = n * 15 := by
  unfold alert_score; split <;> omega

lemma eff_items_build_plan (m : MSnapshot) (t : ℚ) :
    eff_items (build_plan m t) = eff_items_gen (m.avg_efficiency.getD 100) := by
  unfold eff_items build_plan plan_items panel_items eff_items_gen alert_items
  split_ifs <;>
    simp [panel_item, eff_item_high, eff_item_med, alert_item, List.filter_append]

lemma overall_priority_of_bands (n : ℕ) :
    (100 < n → overall_priority_of n = "Critical") ∧
    (51 ≤ n → n ≤ 100 → overall_priority_of n = "High") ∧
    (26 ≤ n → n ≤ 50 → overall_priority_of n = "Medium") ∧
    (n ≤ 25 → overall_priority_of n = "Low") := by
  unfold overall_priority_of
  refine ⟨fun h1 => ?_, fun h1 h2 => ?_, fun h1 h2 => ?_, fun h1 => ?_⟩ <;>
    split_ifs <;> first | rfl | omega

lemma plan_items_rec_ne (m : MSnapshot) (t : ℚ) :
    ∀ i ∈ plan_items m t, i.recommendation ≠ monitoringMsg := by
  have d1 : ("Inspect underperforming panels for soiling, shading, or hardware issues" :
      String) ≠ monitoringMsg := by decide
  have d2 : ("Schedule comprehensive system inspection and cleaning" : String) ≠
      monitoringMsg := by decide
  have d3 : ("Consider panel cleaning and connection inspection" : String) ≠
      monitoringMsg := by decide
  have d4 : ("Address active alerts immediately" : String) ≠ monitoringMsg := by decide
  intro i hi
  unfold plan_items panel_items eff_items_gen alert_items at hi
  split_ifs at hi <;>
    simp only [List.mem_append, List.mem_singleton, List.not_mem_nil, or_false,
      false_or] at hi <;>
    first
      | exact hi.elim
      | (rcases hi with (rfl | rfl) | rfl <;>
          first | exact d1 | exact d2 | exact d3 | exact d4)

lemma dumps_error_obj (msg : String) :
    dumps (.jobj [("error", .jstr msg)]) =
      .ok ("\x7b" ++ String.intercalate ", "
        ["\"" ++ "error" ++ "\": " ++ ("\"" ++ msg ++ "\"")] ++ "\x7d") := by
  simp [dumps, dumpsFields]

lemma safe_json_response_of_ok (data : JVal) (s : String) (h : dumps data = .ok s) :
    safe_json_response data = .ok s := by
  unfold safe_json_response
  rw [h]

lemma safe_json_response_of_error (data : JVal) (e : String)
    (h : dumps data = .error e) :
    safe_json_response data =
      dumps (.jobj [("error", .jstr ("JSON serialization error: " ++ e))]) := by
  unfold safe_json_response
  rw [h]

lemma safe_json_response_ok (data : JVal) :
    ∃ s, safe_json_response data = .ok s := by
  cases h : dumps data with
  | ok s => exact ⟨s, safe_json_response_of_ok data s h⟩
  | error e =>
    exact ⟨_, (safe_json_response_of_error data e h).trans (dumps_error_obj _)⟩

/-! ## Claim theorems -/

/-- C1: for every snapshot, `classify_health` assigns the health status by
evaluating the rules top to bottom with the first match winning:
no alerts and efficiency above 80 gives Excellent; no alerts and
efficiency above 60 gives Good; at most 2 alerts and efficiency above 40
gives Fair; otherwise NeedsAttention. -/
theorem classify_health_first_match (s : Snapshot) :
    (s.active_alerts = 0 → 80 < efficiency_percent s →
      classify_health s = .Excellent) ∧
    (s.active_alerts = 0 → efficiency_percent s ≤ 80 → 60 < efficiency_percent s →
      classify_health s = .Good) ∧
    (¬(s.active_alerts = 0 ∧ 80 < efficiency_percent s) →
      ¬(s.active_alerts = 0 ∧ 60 < efficiency_percent s) →
      s.active_alerts ≤ 2 → 40 < efficiency_percent s → classify_health s = .Fair) ∧
    (¬(s.active_alerts = 0 ∧ 80 < efficiency_percent s) →
      ¬(s.active_alerts = 0 ∧ 60 < efficiency_percent s) →
      ¬(s.active_alerts ≤ 2 ∧ 40 < efficiency_percent s) →
      classify_health s = .NeedsAttention) := by
  unfold classify_health
  refine ⟨fun ha he => ?_, fun ha h80 h60 => ?_, fun h1 h2 hle h40 => ?_,
    fun h1 h2 h3 => ?_⟩
  · rw [if_pos ⟨ha, he⟩]
  · rw [if_neg (by rintro ⟨-, h⟩; linarith), if_pos ⟨ha, h60⟩]
  · rw [if_neg h1, if_neg h2, if_pos ⟨hle, h40⟩]
  · rw [if_neg h1, if_neg h2, if_neg h3]

/-- Witness for C1: a 1000 W system currently producing 900 W with no
alerts has efficiency 90 and is classified Excellent. -/
theorem classify_health_first_match_witness :
    classify_health ⟨some 1000, 900, 0⟩ = .Excellent :=
  (classify_health_first_match ⟨some 1000, 900, 0⟩).1 rfl
    (by norm_num [efficiency_percent, effective_rating])

/-- C2 counterexample: with `power_rating = 0`, `current_power = 10` and no
alerts, the code computes efficiency 0 (the `if power_rating > 0 else 0`
guard), not 1000, and classifies NeedsAttention, not Excellent. -/
theorem zero_rating_cex :
    efficiency_percent ⟨some 0, 10, 0⟩ = 0 ∧
    classify_health ⟨some 0, 10, 0⟩ = .NeedsAttention ∧
    ¬(efficiency_percent ⟨some 0, 10, 0⟩ = 1000 ∧
      classify_health ⟨some 0, 10, 0⟩ = .Excellent) := by
  refine ⟨?_, ?_, ?_⟩
  · norm_num [efficiency_percent, effective_rating]
  · norm_num [classify_health, efficiency_percent, effective_rating]
  · rintro ⟨h, -⟩
    rw [show efficiency_percent ⟨some 0, 10, 0⟩ = 0 by
      norm_num [efficiency_percent, effective_rating]] at h
    norm_num at h

/-- C2 amended: an absent `power_rating` is defaulted to 1, so efficiency
is `current_power * 100` (1000 percent at current power 10, still
Excellent with no alerts); a rating that is present but zero never divides
(no division error) and instead yields efficiency 0, so with current power
10 and no alerts the status is NeedsAttention. -/
theorem rating_fallbacks (c : ℚ) (a : ℕ) :
    efficiency_percent ⟨none, c, a⟩ = c * 100 ∧
    efficiency_percent ⟨some 0, c, a⟩ = 0 ∧
    classify_health ⟨none, 10, 0⟩ = .Excellent ∧
    classify_health ⟨some 0, 10, 0⟩ = .NeedsAttention := by
  refine ⟨?_, ?_, ?_, ?_⟩
  · simp [efficiency_percent, effective_rating]
  · simp [efficiency_percent, effective_rating]
  · norm_num [classify_health, efficiency_percent, effective_rating]
  · norm_num [classify_health, efficiency_percent, effective_rating]

/-- C3 counterexample: with average efficiency 87 and
`threshold_percent = 90` the efficiency is below the threshold, yet
`build_plan` emits no System Efficiency item at all (the Medium band is
hard-coded to end at 85, not at the threshold). -/
theorem eff_band_cex :
    (87 : ℚ) < 90 ∧ eff_items (build_plan ⟨[], some 87, []⟩ 90) = [] ∧
      (build_plan ⟨[], some 87, []⟩ 90).priority_score = 0 := by
  refine ⟨by norm_num, ?_, ?_⟩
  · rw [eff_items_build_plan]
    norm_num [eff_items_gen]
  · norm_num [build_plan, plan_score, panel_score, eff_score, alert_score]

/-- C3 amended: `build_plan` emits the High-priority System Efficiency
item with score contribution 50 exactly when efficiency is below 70, and
the Medium-priority item with contribution 25 exactly when efficiency is
in [70, 85) — the upper bound is the hard-coded 85, independent of
`threshold_percent` — and no System Efficiency item at all when
efficiency is at least 85; never both items. -/
theorem eff_band_amended (m : MSnapshot) (t : ℚ) :
    (m.avg_efficiency.getD 100 < 70 →
      eff_items (build_plan m t) = [eff_item_high (m.avg_efficiency.getD 100)] ∧
      eff_score (m.avg_efficiency.getD 100) = 50) ∧
    (70 ≤ m.avg_efficiency.getD 100 → m.avg_efficiency.getD 100 < 85 →
      eff_items (build_plan m t) = [eff_item_med (m.avg_efficiency.getD 100)] ∧
      eff_score (m.avg_efficiency.getD 100) = 25) ∧
    (85 ≤ m.avg_efficiency.getD 100 →
      eff_items (build_plan m t) = [] ∧ eff_score (m.avg_efficiency.getD 100) = 0) ∧
    (build_plan m t).priority_score =
      panel_score m.underperforming.length + eff_score (m.avg_efficiency.getD 100) +
        alert_score m.active_alerts.length := by
  rw [eff_items_build_plan]
  refine ⟨fun h70 => ?_, fun h70 h85 => ?_, fun h85 => ?_, rfl⟩
  · rw [eff_items_gen, if_pos h70, eff_score, if_pos h70]
    exact ⟨rfl, rfl⟩
  · rw [eff_items_gen, if_neg (not_lt.mpr h70), if_pos h85,
      eff_score, if_neg (not_lt.mpr h70), if_pos h85]
    exact ⟨rfl, rfl⟩
  · rw [eff_items_gen, if_neg (by linarith), if_neg (not_lt.mpr h85),
      eff_score, if_neg (by linarith), if_neg (not_lt.mpr h85)]
    exact ⟨rfl, rfl⟩

/-- Witness for C3: with average efficiency 65 the plan carries exactly
the High-priority System Efficiency item with contribution 50. -/
theorem eff_band_amended_witness :
    eff_items (build_plan ⟨[], some 65, []⟩ 85) = [eff_item_high 65] ∧
      eff_score 65 = 50 :=
  (eff_band_amended ⟨[], some 65, []⟩ 85).1 (by norm_num)

/-- C4 counterexample: with no underperforming panels, no alerts and
efficiency 90 at the default threshold 85, the root `build_plan` returns
an empty items list — not a single Preventive Maintenance item. -/
theorem no_preventive_item_cex :
    (85 : ℚ) ≤ 90 ∧ (build_plan ⟨[], some 90, []⟩ 85).items = [] ∧
      (build_plan ⟨[], some 90, []⟩ 85).priority_score = 0 := by
  refine ⟨by norm_num, ?_, ?_⟩
  · norm_num [build_plan, plan_items, panel_items, eff_items_gen, alert_items]
  · norm_num [build_plan, plan_score, panel_score, eff_score, alert_score]

/-- C4 amended: with no underperforming panels, no active alerts and
average efficiency at least 85 (the hard-coded band edge, which coincides
with the default `threshold_percent`), the root `build_plan` returns an
empty items list, `priority_score` 0 and the continue-monitoring fallback
as `next_recommended_action`; only the packaged variant returns exactly
one recommendation, the Low-priority Preventive Maintenance entry, when a
quiet system is at or above the threshold. -/
theorem quiet_system_plan :
    (∀ (m : MSnapshot) (t : ℚ), m.underperforming = [] → m.active_alerts = [] →
      85 ≤ m.avg_efficiency.getD 100 →
      (build_plan m t).items = [] ∧ (build_plan m t).priority_score = 0 ∧
      (build_plan m t).next_recommended_action = monitoringMsg) ∧
    (∀ (s : Snapshot) (t : ℚ), s.active_alerts = 0 → t ≤ efficiency_percent s →
      pkg_maintenance_recs s t = [pkg_preventive_rec]) := by
  constructor
  · intro m t hu ha h85
    have h1 : ¬ m.avg_efficiency.getD 100 < 70 := by linarith
    have h2 : ¬ m.avg_efficiency.getD 100 < 85 := by linarith
    refine ⟨?_, ?_, ?_⟩
    · simp [build_plan, plan_items, panel_items, eff_items_gen, alert_items,
        hu, ha, h1, h2]
    · simp [build_plan, plan_score, panel_score, eff_score, alert_score,
        hu, ha, h1, h2]
    · simp [build_plan, plan_items, panel_items, eff_items_gen, alert_items,
        hu, ha, h1, h2]
  · intro s t ha ht
    unfold pkg_maintenance_recs
    simp [ha, not_lt.mpr ht]

/-- Witness for C4: a quiet snapshot at efficiency 90 and threshold 85
gets the empty plan from the root variant and the single Preventive
Maintenance entry from the packaged variant. -/
theorem quiet_system_plan_witness :
    ((build_plan ⟨[], some 90, []⟩ 85).items = [] ∧
      (build_plan ⟨[], some 90, []⟩ 85).priority_score = 0 ∧
      (build_plan ⟨[], some 90, []⟩ 85).next_recommended_action = monitoringMsg) ∧
    pkg_maintenance_recs ⟨some 1000, 900, 0⟩ 85 = [pkg_preventive_rec] :=
  ⟨quiet_system_plan.1 ⟨[], some 90, []⟩ 85 rfl rfl (by norm_num),
   quiet_system_plan.2 ⟨some 1000, 900, 0⟩ 85 rfl
     (by norm_num [efficiency_percent, effective_rating])⟩

/-- C5: for every snapshot the recommendation list of `get_system_health`
is non-empty — when no condition-specific recommendation was generated,
the positive-status fallback is appended. -/
theorem health_recommendations_ne_nil (s : Snapshot) :
    health_recommendations s ≠ [] :=
  if_nonempty_ne_nil _

/-- Witness for C5: a healthy snapshot still gets a non-empty
recommendation list. -/
theorem health_recommendations_ne_nil_witness :
    health_recommendations ⟨some 1000, 900, 0⟩ ≠ [] :=
  health_recommendations_ne_nil ⟨some 1000, 900, 0⟩

/-- C6: `build_plan` derives `overall_priority` from `priority_score` by
the fixed thresholds: above 100 Critical, 51 to 100 High, 26 to 50 Medium,
at most 25 Low. -/
theorem overall_priority_bands (m : MSnapshot) (t : ℚ) :
    (100 < (build_plan m t).priority_score →
      (build_plan m t).overall_priority = "Critical") ∧
    (51 ≤ (build_plan m t).priority_score → (build_plan m t).priority_score ≤ 100 →
      (build_plan m t).overall_priority = "High") ∧
    (26 ≤ (build_plan m t).priority_score → (build_plan m t).priority_score ≤ 50 →
      (build_plan m t).overall_priority = "Medium") ∧
    ((build_plan m t).priority_score ≤ 25 →
      (build_plan m t).overall_priority = "Low") :=
  overall_priority_of_bands (plan_score m)

/-- Witness for C6: five underperforming panels, efficiency 50 and one
active alert score 50 + 50 + 15 = 115 and map to Critical. -/
theorem overall_priority_bands_witness :
    (build_plan ⟨["p1", "p2", "p3", "p4", "p5"], some 50, ["a1"]⟩ 85).priority_score
        = 115 ∧
    (build_plan ⟨["p1", "p2", "p3", "p4", "p5"], some 50, ["a1"]⟩ 85).overall_priority
        = "Critical" := by
  have h : (build_plan ⟨["p1", "p2", "p3", "p4", "p5"], some 50, ["a1"]⟩
      85).priority_score = 115 := by
    norm_num [build_plan, plan_score, panel_score, eff_score, alert_score]
  exact ⟨h, (overall_priority_bands ⟨["p1", "p2", "p3", "p4", "p5"], some 50,
    ["a1"]⟩ 85).1 (by rw [h]; norm_num)⟩

/-- C7: holding the other snapshot fields and the threshold fixed, the
`priority_score` of `build_plan` is monotonically non-decreasing in the
underperforming-panel count and in the active-alert count. -/
theorem priority_score_monotone :
    (∀ (u u' al : List String) (avg : Option ℚ) (t : ℚ), u.length ≤ u'.length →
      (build_plan ⟨u, avg, al⟩ t).priority_score ≤
        (build_plan ⟨u', avg, al⟩ t).priority_score) ∧
    (∀ (u al al' : List String) (avg : Option ℚ) (t : ℚ), al.length ≤ al'.length →
      (build_plan ⟨u, avg, al⟩ t).priority_score ≤
        (build_plan ⟨u, avg, al'⟩ t).priority_score) := by
  constructor <;> intro a b c d e h <;>
    simp [build_plan, plan_score, panel_score_eq, alert_score_eq] <;> omega

/-- Witness for C7: adding an underperforming panel and adding an alert
each leave the score no smaller. -/
theorem priority_score_monotone_witness :
    (build_plan ⟨[], some 50, []⟩ 85).priority_score ≤
      (build_plan ⟨["p1"], some 50, []⟩ 85).priority_score ∧
    (build_plan ⟨[], some 50, []⟩ 85).priority_score ≤
      (build_plan ⟨[], some 50, ["a1"]⟩ 85).priority_score :=
  ⟨priority_score_monotone.1 [] ["p1"] [] (some 50) 85 (by norm_num),
   priority_score_monotone.2 [] [] ["a1"] (some 50) 85 (by norm_num)⟩

/-- C8: `next_recommended_action` is the recommendation of the first item
in evaluation order (Panel Performance, then System Efficiency, then
System Alerts), and equals the continue-monitoring fallback exactly when
the items list is empty. -/
theorem next_action_first (m : MSnapshot) (t : ℚ) :
    (build_plan m t).items =
      panel_items m.underperforming t ++ eff_items_gen (m.avg_efficiency.getD 100) ++
        alert_items m.active_alerts ∧
    (build_plan m t).next_recommended_action =
      (((build_plan m t).items.head?).map MaintenanceItem.recommendation).getD
        monitoringMsg ∧
    ((build_plan m t).next_recommended_action = monitoringMsg ↔
      (build_plan m t).items = []) := by
  refine ⟨rfl, ?_, ?_⟩ <;> rcases h : plan_items m t with _ | ⟨i, rest⟩
  · simp [build_plan, h]
  · simp [build_plan, h]
  · simp [build_plan, h]
  · have hne := plan_items_rec_ne m t i (by rw [h]; exact List.mem_cons_self i rest)
    simp [build_plan, h, hne]

/-- Witness for C8: with both a Panel Performance item and a System
Alerts item present, the next action is the panel recommendation, the
first in evaluation order. -/
theorem next_action_first_witness :
    (build_plan ⟨["p1"], some 90, ["a1"]⟩ 85).next_recommended_action =
      (panel_item ["p1"] 85).recommendation := by
  have h := (next_action_first ⟨["p1"], some 90, ["a1"]⟩ 85).2.1
  rw [h]
  norm_num [build_plan, plan_items, panel_items, eff_items_gen, alert_items]

/-- C9: `get_system_health` adds the below-optimal recommendation exactly
when efficiency is below 60, and the alert-count recommendation exactly
when there are active alerts, independently of the status table. -/
theorem health_recommendation_conditions (s : Snapshot) :
    (effLowMsg ∈ health_recommendations s ↔ efficiency_percent s < 60) ∧
    (addressMsg s.active_alerts ∈ health_recommendations s ↔ 0 < s.active_alerts) := by
  have h1 : addressMsg s.active_alerts ≠ effLowMsg := addressMsg_ne _ _ rfl
  have h2 : addressMsg s.active_alerts ≠ performingWellMsg := addressMsg_ne _ _ rfl
  have h3 : effLowMsg ≠ performingWellMsg := by decide
  unfold health_recommendations
  by_cases he : efficiency_percent s < 60 <;>
    rcases Nat.eq_zero_or_pos s.active_alerts with ha | ha <;>
      simp_all [he, ha, Ne.symm h1]

/-- Witness for C9: a snapshot at efficiency 10 with 2 alerts carries
both recommendations. -/
theorem health_recommendation_conditions_witness :
    effLowMsg ∈ health_recommendations ⟨some 1000, 100, 2⟩ ∧
    addressMsg 2 ∈ health_recommendations ⟨some 1000, 100, 2⟩ :=
  ⟨(health_recommendation_conditions ⟨some 1000, 100, 2⟩).1.mpr
      (by norm_num [efficiency_percent, effective_rating]),
   (health_recommendation_conditions ⟨some 1000, 100, 2⟩).2.mpr (by norm_num)⟩

/-- C10: every tool handler returns a JSON string for every body outcome:
a raised exception is converted into the serialization of an object whose
single field is `"error"`, and `safe_json_response` itself never raises,
returning the serialization-error object when `json.dumps` fails on the
data. -/
theorem tool_response_shape (ctx : String) (body : Except String JVal) :
    (∃ s, tool_response ctx body = .ok s) ∧
    (∀ e, body = .error e →
      tool_response ctx body = dumps (.jobj [("error", .jstr (ctx ++ e))])) ∧
    (∀ data, ∃ s, safe_json_response data = .ok s) ∧
    (∀ data e, dumps data = .error e →
      safe_json_response data =
        dumps (.jobj [("error", .jstr ("JSON serialization error: " ++ e))])) := by
  refine ⟨?_, ?_, safe_json_response_ok, safe_json_response_of_error⟩
  · cases body with
    | ok d => exact safe_json_response_ok d
    | error e =>
      exact ⟨_, (safe_json_response_of_ok _ _ (dumps_error_obj (ctx ++ e))).trans rfl⟩
  · rintro e rfl
    exact safe_json_response_of_ok _ _ (dumps_error_obj (ctx ++ e))

/-- Witness for C10: a failing body is rendered as the error object, and
an unserializable payload still yields a string response. -/
theorem tool_response_shape_witness :
    tool_response "Error fetching system health: " (.error "boom") =
      dumps (.jobj [("error",
        .jstr ("Error fetching system health: " ++ "boom"))]) ∧
    (∃ s, safe_json_response (.jother "set" false) = .ok s) :=
  ⟨(tool_response_shape "Error fetching system health: "
      (.error "boom")).2.1 "boom" rfl,
   (tool_response_shape "" (.error "")).2.2.1 (.jother "set" false)⟩

end Tigo
